import Mathlib

/-!
Shallow embedding of `src/cmd/sky/builder.go` (the skynet build/deploy tool).

The program is a sequential build pipeline driven by a `builder` value holding
a build configuration, a deploy configuration, an execution backend (`term`,
either a local terminal or an ssh session) and a VCS provider (`scm`).  We
model a run as a function from a builder state to a final state, a trace of
observable actions (commands executed, environment variables set, messages
printed, the backend being closed, ...) and a result that is either normal
termination or a Go `panic` carrying its message.

External collaborators that are not part of `src/` (the terminal backends,
the git provider, the go/build package, `exec.Command`) are represented by
oracles: functions fixing the outcome of every external call.  Every claim is
quantified over these oracles or instantiates them concretely.
-/

namespace Skynet

/-- Observable actions of a run, in order. -/
inductive Event where
  | exec (cmd : String)
  | execPath (cmd : String) (dir : String)
  | setEnv (name : String) (value : String)
  | close
  | output (msg : String)
  | connect (host : String) (user : String)
  | checkout (repo : String) (branch : String) (dest : String)
  | localCmd (prog : String) (args : List String)
deriving DecidableEq, Repr

/-- The `Build` section of the configuration file (struct `buildConfig`). -/
structure BuildConfig where
  Host : String
  User : String
  Jail : String
  CgoCFlags : String
  CgoLdFlags : String
  GoRoot : String
  GoPath : String
  AppRepo : String
  AppPath : String
  RepoType : String
  RepoBranch : String
  UpdatePackages : Bool
  BuildAllPackages : Bool
  RunTests : Bool
  TestSkynet : Bool
  PreBuildCommands : List String
  PostBuildCommands : List String
deriving Repr

/-- The `Deploy` section of the configuration file (struct `deployConfig`). -/
structure DeployConfig where
  DeployPath : String
  BinaryName : String
deriving Repr

/-- Outcome oracle for the execution backend: for each command (and working
directory for `ExecPath`) the produced output and the optional error message.
Mirrors the Go `Terminal` interface returning `([]byte, error)`. -/
structure TerminalOracle where
  exec : String → String × Option String
  execPath : String → String → String × Option String

/-- Outcome oracle for the VCS provider (`GitScm`, implemented outside
`src/`): its binary name, the result of `ImportPathFromRepo` as a Go-style
pair of value and optional error, and whether `Checkout` succeeds. -/
structure ScmOracle where
  binaryName : String
  importPathFromRepo : String → String × Option String
  checkoutOk : Bool

/-- Outcome oracle for the go/build package probe used by `validatePackage`
(`context.ImportDir`), which lives outside `src/`. -/
structure PackageOracle where
  importOk : Bool
  isCommand : Bool

/-- Outcome oracle for commands spawned directly on the deploying machine via
`exec.Command(...).CombinedOutput()`. -/
structure LocalOracle where
  run : String → List String → String × Option String

/-- Mutable builder state threaded through the run: the only field the
pipeline mutates is `projectPath` (Go zero value: the empty string). -/
structure BState where
  projectPath : String
deriving DecidableEq, Repr

/-- A pipeline computation: from a state to the final state, the emitted
trace, and either a value or the message of the Go `panic` that aborted it. -/
def Run (α : Type) : Type :=
  BState → BState × List Event × Except String α

instance : Monad Run where
  pure a := fun s => (s, [], Except.ok a)
  bind x f := fun s =>
    match x s with
    | (s1, t1, Except.error e) => (s1, t1, Except.error e)
    | (s1, t1, Except.ok a) =>
      match f a s1 with
      | (s2, t2, r) => (s2, t1 ++ t2, r)

/-- `term.Exec(cmd)`: emit the command and return its oracle outcome. -/
def tExec (term : TerminalOracle) (cmd : String) : Run (String × Option String) :=
  fun s => (s, [Event.exec cmd], Except.ok (term.exec cmd))

/-- `term.ExecPath(cmd, dir)`. -/
def tExecPath (term : TerminalOracle) (cmd : String) (dir : String) :
    Run (String × Option String) :=
  fun s => (s, [Event.execPath cmd dir], Except.ok (term.execPath cmd dir))

/-- `term.SetEnv(name, value)`. -/
def tSetEnv (name value : String) : Run Unit :=
  fun s => (s, [Event.setEnv name value], Except.ok ())

/-- `term.Close()`. -/
def tClose : Run Unit :=
  fun s => (s, [Event.close], Except.ok ())

/-- `fmt.Println(msg)`. -/
def println (msg : String) : Run Unit :=
  fun s => (s, [Event.output msg], Except.ok ())

/-- Go `panic(msg)`: abort the run carrying the message. -/
def panicRun {α : Type} (msg : String) : Run α :=
  fun s => (s, [], Except.error msg)

/-- Read `b.projectPath`. -/
def getProjectPath : Run String :=
  fun s => (s, [], Except.ok s.projectPath)

/-- Write `b.projectPath`. -/
def setProjectPath (p : String) : Run Unit :=
  fun _ => ({ projectPath := p }, [], Except.ok ())

/-- `sshClient.Connect(host, user)` (implementation outside `src/`). -/
def connectRun (host user : String) : Run Unit :=
  fun s => (s, [Event.connect host user], Except.ok ())

/-- Modelled from the spec: `scm.Checkout(repo, branch, dest)`.  `GitScm` is
not under `src/`; the spec describes it as an idempotent checkout/update step
driven through the backend, so it is modelled as one opaque action that
fails exactly when the oracle says so. -/
def checkoutRun (scm : ScmOracle) (repo branch dest : String) : Run Unit :=
  fun s => (s, [Event.checkout repo branch dest],
    if scm.checkoutOk then Except.ok () else Except.error "checkout failed")

/-- `exec.Command(prog, args...).CombinedOutput()` on the local machine. -/
def localRun (lo : LocalOracle) (prog : String) (args : List String) :
    Run (String × Option String) :=
  fun s => (s, [Event.localCmd prog args], Except.ok (lo.run prog args))

/-! ### Go `path` package (path.Clean, path.Join, path.Base) -/

/-- Split a character list at every occurrence of the separator; the
semantics of Go `strings.Split` for a one-character separator. -/
def splitOnChar (sep : Char) : List Char → List (List Char)
  | [] => [[]]
  | c :: rest =>
    if c = sep then [] :: splitOnChar sep rest
    else match splitOnChar sep rest with
      | [] => [[c]]
      | h :: t => (c :: h) :: t

/-- Go `strings.Split(s, sep)` for a one-character separator. -/
def stringSplitOnChar (sep : Char) (s : String) : List String :=
  (splitOnChar sep s.data).map String.mk

/-- Stack-based core of Go `path.Clean`: process the slash-separated
components, dropping empty and `.` components and resolving `..`. -/
def cleanStack (rooted : Bool) : List String → List String → List String
  | [], stk => stk
  | c :: rest, stk =>
    if c = "" || c = "." then cleanStack rooted rest stk
    else if c = ".." then
      match stk with
      | [] => cleanStack rooted rest (if rooted then [] else [".."])
      | top :: stk2 =>
        if top = ".." then cleanStack rooted rest (".." :: top :: stk2)
        else cleanStack rooted rest stk2
    else cleanStack rooted rest (c :: stk)

/-- Go `path.Clean`. -/
def pathClean (p : String) : String :=
  if p = "" then "." else
  let rooted := match p.data with
    | c :: _ => c = '/'
    | [] => false
  let joined := String.intercalate "/"
    ((cleanStack rooted (stringSplitOnChar '/' p) []).reverse)
  if rooted then (if joined = "" then "/" else "/" ++ joined)
  else (if joined = "" then "." else joined)

/-- Go `path.Join`: drop empty elements, join with slashes, clean. -/
def pathJoin (elems : List String) : String :=
  let ne := elems.filter (fun e => e ≠ "")
  if ne.isEmpty then "" else pathClean (String.intercalate "/" ne)

/-- Go `path.Base`: last element of the path after stripping trailing
slashes. -/
def pathBase (p : String) : String :=
  if p = "" then "." else
  let r := p.data.reverse.dropWhile (fun c => c = '/')
  if r.isEmpty then "/" else String.mk ((r.takeWhile (fun c => c ≠ '/')).reverse)

/-! ### Plain helpers of builder.go -/

/-- `isHostLocal` from builder.go. -/
def isHostLocal (host : String) : Bool :=
  if host = "localhost" || host = "127.0.0.1" || host = "" then true
  else false

/-- `splitHostPort` from builder.go: split on `:`, default port 22. -/
def splitHostPort (host : String) : String × String :=
  match stringSplitOnChar ':' host with
  | [] => ("", "22")
  | [h] => (h, "22")
  | h :: p :: _ => (h, p)

/-- `goPath` from builder.go: `Jail` alone, or `Jail:GoPath`. -/
def goPath (cfg : BuildConfig) : String :=
  if cfg.GoPath ≠ "" then cfg.Jail ++ ":" ++ cfg.GoPath
  else cfg.Jail

/-- The `go get` command string assembled by `getPackageDependencies`:
flags start as `-d` and `-u` is appended when `UpdatePackages` is set. -/
def goGetCmd (cfg : BuildConfig) : String :=
  "go get " ++ (if cfg.UpdatePackages then "-d -u" else "-d") ++ " ./..."

/-- The `go install` command string assembled by `buildProject`: flags start
as `-v` and ` -a` is appended when `BuildAllPackages` is set. -/
def goInstallCmd (cfg : BuildConfig) : String :=
  "go install " ++ (if cfg.BuildAllPackages then "-v -a" else "-v")

/-- The fixed secondary project path used by `testSkynet`. -/
def skynetPath (cfg : BuildConfig) : String :=
  pathJoin [cfg.Jail, "src/github.com/skynetservices/skynet2"]

/-! ### Pipeline stages (methods of `builder`) -/

/-- `validatePackage`: import the working directory through the go/build
context and require it to be a command; both probes live outside `src/`, so
their verdicts are oracle inputs. -/
def validatePackage (pk : PackageOracle) : Run Unit :=
  if !pk.importOk then panicRun "Could not import package for validation"
  else if !pk.isCommand then panicRun "Package is not a command"
  else pure ()

/-- Backend variants (`LocalTerminal` / `SSHConn`). -/
inductive Backend where
  | localTerminal
  | sshConn (host : String) (user : String)
deriving DecidableEq, Repr

/-- Backend selection in `newBuilder`: local terminal for a local `Host`,
ssh connection otherwise. -/
def selectBackend (cfg : BuildConfig) : Backend :=
  if isHostLocal cfg.Host then Backend.localTerminal
  else Backend.sshConn cfg.Host cfg.User

/-- `newBuilder` after the configuration has been read and parsed (file
reading and JSON decoding are external): select the backend, connect when it
is remote, then validate the package. -/
def newBuilder (cfg : BuildConfig) (pk : PackageOracle) : Run Unit :=
  (match selectBackend cfg with
   | Backend.localTerminal => pure ()
   | Backend.sshConn h u => connectRun h u) >>= fun _ =>
  validatePackage pk

/-- `setupScm`: only the `git` repository type is known; anything else
panics. -/
def setupScm (cfg : BuildConfig) : Run Unit :=
  if cfg.RepoType = "git" then pure ()
  else panicRun "unkown RepoType"

/-- `validateBuildEnvironment`: four probes run unconditionally in sequence;
each failing probe prints its own report and clears `valid` (modelled as the
conjunction of the four per-probe verdicts, which is what the sequence of
mutable updates computes). -/
def validateBuildEnvironment (cfg : BuildConfig) (term : TerminalOracle)
    (scm : ScmOracle) : Run Bool :=
  tExec term ("ls " ++ cfg.Jail) >>= fun r1 =>
  (match r1.2 with
   | some e => println ("Could not find Jail directory: " ++ e) >>= fun _ => pure false
   | none => pure true) >>= fun v1 =>
  tExec term ("ls " ++ cfg.GoRoot) >>= fun r2 =>
  (match r2.2 with
   | some e => println ("Could not find GOROOT directory: " ++ e) >>= fun _ => pure false
   | none => pure true) >>= fun v2 =>
  tExec term ("ls " ++ cfg.GoRoot ++ "/bin/go") >>= fun r3 =>
  (match r3.2 with
   | some e => println ("Could not find Go binary: " ++ e) >>= fun _ => pure false
   | none => pure true) >>= fun v3 =>
  tExec term ("which " ++ scm.binaryName) >>= fun r4 =>
  (match r4.2 with
   | some e =>
     println ("Could not find " ++ cfg.RepoType ++ " binary: " ++ e) >>= fun _ => pure false
   | none => pure true) >>= fun v4 =>
  pure (v1 && v2 && v3 && v4)

/-- `updateCode`: derive the import path, assign `projectPath` (note: the
assignment precedes the error check, exactly as in the source), panic on a
failed derivation, make sure the directory exists, then check out. -/
def updateCode (cfg : BuildConfig) (term : TerminalOracle) (scm : ScmOracle) :
    Run Unit :=
  (pure (scm.importPathFromRepo cfg.AppRepo) : Run (String × Option String)) >>= fun pr =>
  setProjectPath (pathJoin [cfg.Jail, "src", pr.1]) >>= fun _ =>
  (match pr.2 with
   | some e => panicRun e
   | none => pure ()) >>= fun _ =>
  getProjectPath >>= fun pp =>
  tExec term ("ls " ++ pp) >>= fun r =>
  (match r.2 with
   | some _ =>
     println "Creating project directories" >>= fun _ =>
     tExec term ("mkdir -p " ++ pp) >>= fun r2 =>
     (match r2.2 with
      | some _ => panicRun "Could not create project directories"
      | none => println r2.1)
   | none => pure ()) >>= fun _ =>
  checkoutRun scm cfg.AppRepo cfg.RepoBranch pp

/-- `getPackageDependencies`: `go get` with `-d` (plus `-u` when
`UpdatePackages`) in the given directory; panic on failure. -/
def getPackageDependencies (cfg : BuildConfig) (term : TerminalOracle)
    (p : String) : Run Unit :=
  println "Fetching dependencies" >>= fun _ =>
  tExecPath term (goGetCmd cfg) p >>= fun r =>
  println r.1 >>= fun _ =>
  match r.2 with
  | some e => panicRun ("Failed to fetch dependencies\n" ++ e)
  | none => pure ()

/-- `updateDependencies`: fetch dependencies for `projectPath/AppPath`. -/
def updateDependencies (cfg : BuildConfig) (term : TerminalOracle) : Run Unit :=
  getProjectPath >>= fun pp =>
  getPackageDependencies cfg term (pathJoin [pp, cfg.AppPath])

/-- `buildProject`: `go install` in `projectPath/AppPath`; panic on
failure. -/
def buildProject (cfg : BuildConfig) (term : TerminalOracle) : Run Unit :=
  getProjectPath >>= fun pp =>
  println "Building packages" >>= fun _ =>
  tExecPath term (goInstallCmd cfg) (pathJoin [pp, cfg.AppPath]) >>= fun r =>
  println r.1 >>= fun _ =>
  match r.2 with
  | some e => panicRun ("Failed build: " ++ e)
  | none => pure ()

/-- `testSkynet`: fetch dependencies for the fixed internal project and run
its recursive test suite; panic on failure. -/
def testSkynet (cfg : BuildConfig) (term : TerminalOracle) : Run Unit :=
  println "Testing Skynet" >>= fun _ =>
  getPackageDependencies cfg term (skynetPath cfg) >>= fun _ =>
  tExecPath term "go test ./..." (skynetPath cfg) >>= fun r =>
  println r.1 >>= fun _ =>
  match r.2 with
  | some e => panicRun ("Failed tests: " ++ e)
  | none => pure ()

/-- `runTests`: test `projectPath/AppPath`; panic on failure; then run the
skynet self-test when `TestSkynet` is set. -/
def runTests (cfg : BuildConfig) (term : TerminalOracle) : Run Unit :=
  getProjectPath >>= fun pp =>
  println "Testing packages" >>= fun _ =>
  tExecPath term "go test" (pathJoin [pp, cfg.AppPath]) >>= fun r =>
  println r.1 >>= fun _ =>
  (match r.2 with
   | some e => panicRun ("Failed tests: " ++ e)
   | none => pure ()) >>= fun _ =>
  if cfg.TestSkynet then testSkynet cfg term else pure ()

/-- `runCommands`: run the list in order, printing each output, panicking on
the first failure. -/
def runCommands (term : TerminalOracle) : List String → Run Unit
  | [] => pure ()
  | cmd :: rest =>
    tExec term cmd >>= fun r =>
    println r.1 >>= fun _ =>
    match r.2 with
    | some e =>
      panicRun ("Failed to execute dependent command: " ++ cmd ++ "\n" ++ e)
    | none => runCommands term rest

/-- `performBuild`: the pipeline state machine. -/
def performBuild (cfg : BuildConfig) (term : TerminalOracle) (scm : ScmOracle) :
    Run Unit :=
  setupScm cfg >>= fun _ =>
  validateBuildEnvironment cfg term scm >>= fun valid =>
  if valid then
    updateCode cfg term scm >>= fun _ =>
    tSetEnv "GOPATH" (goPath cfg) >>= fun _ =>
    tSetEnv "GOROOT" cfg.GoRoot >>= fun _ =>
    tSetEnv "CGO_CFLAGS" cfg.CgoCFlags >>= fun _ =>
    tSetEnv "CGO_LDFLAGS" cfg.CgoLdFlags >>= fun _ =>
    runCommands term cfg.PreBuildCommands >>= fun _ =>
    updateDependencies cfg term >>= fun _ =>
    buildProject cfg term >>= fun _ =>
    (if cfg.RunTests then runTests cfg term else pure ()) >>= fun _ =>
    runCommands term cfg.PostBuildCommands
  else pure ()

/-- One iteration of the `deploy` loop body: the two supported transfer
combinations each build and run one local command; any other combination
leaves `out` and `err` at their zero values, so nothing runs and nothing
fails. -/
def deployStep (cfg : BuildConfig) (dcfg : DeployConfig) (lo : LocalOracle)
    (host : String) : Run Unit :=
  (if isHostLocal host && isHostLocal cfg.Host then
     println "Copying local binary" >>= fun _ =>
     localRun lo "cp"
       [pathJoin [cfg.Jail, "bin", pathBase cfg.AppPath],
        pathJoin [dcfg.DeployPath, dcfg.BinaryName]]
   else if isHostLocal host && !isHostLocal cfg.Host then
     println "Copying binary from build machine" >>= fun _ =>
     localRun lo "scp"
       ["-P", (splitHostPort cfg.Host).2,
        cfg.User ++ "@" ++ (splitHostPort cfg.Host).1 ++ ":"
          ++ pathJoin [cfg.Jail, "bin", pathBase cfg.AppPath],
        pathJoin [dcfg.DeployPath, dcfg.BinaryName]]
   else
     (pure (("", none) : String × Option String))) >>= fun r =>
  println r.1 >>= fun _ =>
  match r.2 with
  | some e => panicRun ("Failed to deploy: " ++ e)
  | none => pure ()

/-- `deploy`: process the host list strictly in order. -/
def deploy (cfg : BuildConfig) (dcfg : DeployConfig) (lo : LocalOracle) :
    List String → Run Unit
  | [] => pure ()
  | host :: rest =>
    deployStep cfg dcfg lo host >>= fun _ => deploy cfg dcfg lo rest

/-- Entry point `Build(config)`: construct the builder, run the pipeline,
close the backend. -/
def Build (cfg : BuildConfig) (term : TerminalOracle) (scm : ScmOracle)
    (pk : PackageOracle) : Run Unit :=
  newBuilder cfg pk >>= fun _ =>
  performBuild cfg term scm >>= fun _ =>
  tClose

/-- Entry point `Deploy(config)`: construct the builder, deploy to
`["localhost"]`, close the backend. -/
def Deploy (cfg : BuildConfig) (dcfg : DeployConfig) (pk : PackageOracle)
    (lo : LocalOracle) : Run Unit :=
  newBuilder cfg pk >>= fun _ =>
  deploy cfg dcfg lo ["localhost"] >>= fun _ =>
  tClose

/-! ### Trace vocabulary -/

/-- Is this event the backend being closed? -/
def isClose : Event → Bool
  | Event.close => true
  | _ => false

/-- Is this event one of the two test-stage commands? -/
def isTestCmd : Event → Bool
  | Event.execPath cmd _ => cmd = "go test" || cmd = "go test ./..."
  | _ => false

/-- Is this event a directory-scoped command (`ExecPath`), as issued only by
the dependency-fetch, build and test stages? -/
def isExecPath : Event → Bool
  | Event.execPath _ _ => true
  | _ => false

/-- Is this event a locally spawned deployment command? -/
def isLocalCmd : Event → Bool
  | Event.localCmd _ _ => true
  | _ => false

/-- The plain commands (`Exec`) of a trace, in order. -/
def execEvents (t : List Event) : List String :=
  t.filterMap (fun e => match e with
    | Event.exec c => some c
    | _ => none)

/-- The working directories of the directory-scoped commands of a trace, in
order. -/
def execPathDirs (t : List Event) : List String :=
  t.filterMap (fun e => match e with
    | Event.execPath _ d => some d
    | _ => none)

/-- The prefix of a command list that `runCommands` actually attempts under
a given terminal oracle: everything up to and including the first failing
command. -/
def commandsAttempted (term : TerminalOracle) : List String → List String
  | [] => []
  | c :: rest =>
    if ((term.exec c).2).isSome then [c]
    else c :: commandsAttempted term rest

/-- The trace `runCommands` produces when every listed command succeeds. -/
def cmdTrace (term : TerminalOracle) : List String → List Event
  | [] => []
  | c :: rest => Event.exec c :: Event.output (term.exec c).1 :: cmdTrace term rest

/-- A run emits no event satisfying `P`, from any state and on any path. -/
def Emits0 (P : Event → Bool) {α : Type} (x : Run α) : Prop :=
  ∀ s : BState, ((x s).2.1.countP P) = 0

/-- The events a failing probe of `validateBuildEnvironment` adds to the
trace: one report built from the probe outcome, nothing on success. -/
def probeReport (r : String × Option String) (msg : String → String) : List Event :=
  match r.2 with
  | some e => [Event.output (msg e)]
  | none => []

/-- The project path `updateCode` assigns: `join(Jail, "src", importPath)`
over whatever value the import-path derivation returned. -/
def projPath0 (cfg : BuildConfig) (scm : ScmOracle) : String :=
  pathJoin [cfg.Jail, "src", (scm.importPathFromRepo cfg.AppRepo).1]

/-- Initial builder state (Go zero values). -/
def initState : BState := { projectPath := "" }

/-! ### Concrete fixtures for witnesses and counterexamples -/

/-- A terminal on which every command succeeds with empty output. -/
def termOk : TerminalOracle :=
  { exec := fun _ => ("", none), execPath := fun _ _ => ("", none) }

/-- A terminal on which exactly the command `boom` fails. -/
def termBoom : TerminalOracle :=
  { exec := fun c => if c = "boom" then ("", some "bad") else ("", none),
    execPath := fun _ _ => ("", none) }

/-- A terminal on which exactly the skynet self-test command fails. -/
def termSkyFail : TerminalOracle :=
  { exec := fun _ => ("", none),
    execPath := fun c _ => if c = "go test ./..." then ("", some "tfail") else ("", none) }

/-- A git provider whose derivation and checkout succeed. -/
def scmOk : ScmOracle :=
  { binaryName := "git",
    importPathFromRepo := fun _ => ("github.com/acme/app", none),
    checkoutOk := true }

/-- A git provider whose import-path derivation fails. -/
def scmBad : ScmOracle :=
  { binaryName := "git",
    importPathFromRepo := fun _ => ("", some "bad repo"),
    checkoutOk := true }

/-- A package probe that sees a valid command package. -/
def pkOk : PackageOracle := { importOk := true, isCommand := true }

/-- A local spawner on which every command succeeds with empty output. -/
def loOk : LocalOracle := { run := fun _ _ => ("", none) }

/-- Base configuration used by the concrete fixtures: a local build host,
jail `/j`, application `myapp`, a git repository. -/
def cfg0 : BuildConfig :=
  { Host := "", User := "u", Jail := "/j", CgoCFlags := "", CgoLdFlags := "",
    GoRoot := "/goroot", GoPath := "",
    AppRepo := "https://github.com/acme/app.git", AppPath := "myapp",
    RepoType := "git", RepoBranch := "master",
    UpdatePackages := false, BuildAllPackages := false,
    RunTests := false, TestSkynet := false,
    PreBuildCommands := [], PostBuildCommands := [] }

/-- `cfg0` with one failing pre-build command. -/
def cfgBoom : BuildConfig := { cfg0 with PreBuildCommands := ["boom"] }

/-- `cfg0` with tests and the skynet self-test enabled. -/
def cfgTests : BuildConfig := { cfg0 with RunTests := true, TestSkynet := true }

/-- `cfg0` with the skynet self-test flag set but tests disabled. -/
def cfgNoTests : BuildConfig := { cfg0 with RunTests := false, TestSkynet := true }

/-- Deploy section used by the fixtures. -/
def dcfg0 : DeployConfig := { DeployPath := "/out", BinaryName := "app" }

/-! ## Theorems -/

theorem bind_apply {α β : Type} (x : Run α) (f : α → Run β) (s : BState) :
    (x >>= f) s = match x s with
      | (s1, t1, Except.error e) => (s1, t1, Except.error e)
      | (s1, t1, Except.ok a) =>
        match f a s1 with
        | (s2, t2, r) => (s2, t1 ++ t2, r) := rfl

theorem pure_apply {α : Type} (a : α) (s : BState) :
    (pure a : Run α) s = (s, [], Except.ok a) := rfl

@[simp] theorem run_state_bind {α β : Type} (x : Run α) (f : α → Run β)
    (s : BState) :
    ((x >>= f) s).1 = match (x s).2.2 with
      | Except.ok a => (f a (x s).1).1
      | Except.error _ => (x s).1 := by
  rw [bind_apply]
  rcases h : x s with ⟨s1, t1, r⟩
  cases r <;> rfl

@[simp] theorem run_trace_bind {α β : Type} (x : Run α) (f : α → Run β)
    (s : BState) :
    ((x >>= f) s).2.1 = (x s).2.1 ++ (match (x s).2.2 with
      | Except.ok a => (f a (x s).1).2.1
      | Except.error _ => []) := by
  rw [bind_apply]
  rcases h : x s with ⟨s1, t1, r⟩
  cases r with
  | error e => show t1 = t1 ++ [] ; rw [List.append_nil]
  | ok a => rfl

@[simp] theorem run_result_bind {α β : Type} (x : Run α) (f : α → Run β)
    (s : BState) :
    ((x >>= f) s).2.2 = match (x s).2.2 with
      | Except.ok a => (f a (x s).1).2.2
      | Except.error e => Except.error e := by
  rw [bind_apply]
  rcases h : x s with ⟨s1, t1, r⟩
  cases r <;> rfl

@[simp] theorem run_pure_apply {α : Type} (a : α) (s : BState) :
    (pure a : Run α) s = (s, [], Except.ok a) := rfl

@[simp] theorem tExec_apply (term : TerminalOracle) (cmd : String) (s : BState) :
    tExec term cmd s = (s, [Event.exec cmd], Except.ok (term.exec cmd)) := rfl

@[simp] theorem tExecPath_apply (term : TerminalOracle) (cmd dir : String)
    (s : BState) :
    tExecPath term cmd dir s
      = (s, [Event.execPath cmd dir], Except.ok (term.execPath cmd dir)) := rfl

@[simp] theorem tSetEnv_apply (name value : String) (s : BState) :
    tSetEnv name value s = (s, [Event.setEnv name value], Except.ok ()) := rfl

@[simp] theorem tClose_apply (s : BState) :
    tClose s = (s, [Event.close], Except.ok ()) := rfl

@[simp] theorem println_apply (msg : String) (s : BState) :
    println msg s = (s, [Event.output msg], Except.ok ()) := rfl

@[simp] theorem panicRun_apply {α : Type} (msg : String) (s : BState) :
    (panicRun msg : Run α) s = (s, [], Except.error msg) := rfl

@[simp] theorem getProjectPath_apply (s : BState) :
    getProjectPath s = (s, [], Except.ok s.projectPath) := rfl

@[simp] theorem setProjectPath_apply (p : String) (s : BState) :
    setProjectPath p s = ({ projectPath := p }, [], Except.ok ()) := rfl

@[simp] theorem connectRun_apply (host user : String) (s : BState) :
    connectRun host user s = (s, [Event.connect host user], Except.ok ()) := rfl

@[simp] theorem checkoutRun_apply (scm : ScmOracle) (repo branch dest : String)
    (s : BState) :
    checkoutRun scm repo branch dest s
      = (s, [Event.checkout repo branch dest],
         if scm.checkoutOk then Except.ok () else Except.error "checkout failed") := rfl

@[simp] theorem localRun_apply (lo : LocalOracle) (prog : String)
    (args : List String) (s : BState) :
    localRun lo prog args s
      = (s, [Event.localCmd prog args], Except.ok (lo.run prog args)) := rfl

theorem emits0_bind {P : Event → Bool} {α β : Type} {x : Run α}
    {f : α → Run β} (hx : Emits0 P x) (hf : ∀ a, Emits0 P (f a)) :
    Emits0 P (x >>= f) := by
  intro s
  have hx1 := hx s
  rw [bind_apply]
  rcases h : x s with ⟨s1, t1, r⟩
  rw [h] at hx1
  cases r with
  | error e => simpa using hx1
  | ok a =>
    have hf1 := hf a s1
    rcases h2 : f a s1 with ⟨s2, t2, r2⟩
    rw [h2] at hf1
    show List.countP P ((match f a s1 with
      | (s2, t2, r) => ((s2, t1 ++ t2, r) : BState × List Event × Except String β))).2.1 = 0
    rw [h2]
    show List.countP P (t1 ++ t2) = 0
    simp only [List.countP_append]
    simp only at hx1 hf1
    omega

theorem emits0_pure {P : Event → Bool} {α : Type} (a : α) :
    Emits0 P (pure a : Run α) := by
  intro s; simp [pure_apply]

theorem emits0_panicRun {P : Event → Bool} {α : Type} (msg : String) :
    Emits0 P (panicRun msg : Run α) := by
  intro s; simp [panicRun]

theorem emits0_tExec {P : Event → Bool} {term : TerminalOracle} {cmd : String}
    (h : P (Event.exec cmd) = false) : Emits0 P (tExec term cmd) := by
  intro s; simp [tExec, List.countP_cons, h]

theorem emits0_tExecPath {P : Event → Bool} {term : TerminalOracle}
    {cmd dir : String} (h : P (Event.execPath cmd dir) = false) :
    Emits0 P (tExecPath term cmd dir) := by
  intro s; simp [tExecPath, List.countP_cons, h]

theorem emits0_tSetEnv {P : Event → Bool} {name value : String}
    (h : P (Event.setEnv name value) = false) : Emits0 P (tSetEnv name value) := by
  intro s; simp [tSetEnv, List.countP_cons, h]

theorem emits0_println {P : Event → Bool} {msg : String}
    (h : P (Event.output msg) = false) : Emits0 P (println msg) := by
  intro s; simp [println, List.countP_cons, h]

theorem emits0_getProjectPath {P : Event → Bool} : Emits0 P getProjectPath := by
  intro s; simp [getProjectPath]

theorem emits0_setProjectPath {P : Event → Bool} (p : String) :
    Emits0 P (setProjectPath p) := by
  intro s; simp [setProjectPath]

theorem emits0_connectRun {P : Event → Bool} {host user : String}
    (h : P (Event.connect host user) = false) : Emits0 P (connectRun host user) := by
  intro s; simp [connectRun, List.countP_cons, h]

theorem emits0_checkoutRun {P : Event → Bool} {scm : ScmOracle}
    {repo branch dest : String} (h : P (Event.checkout repo branch dest) = false) :
    Emits0 P (checkoutRun scm repo branch dest) := by
  intro s; simp [checkoutRun, List.countP_cons, h]

theorem emits0_localRun {P : Event → Bool} {lo : LocalOracle} {prog : String}
    {args : List String} (h : P (Event.localCmd prog args) = false) :
    Emits0 P (localRun lo prog args) := by
  intro s; simp [localRun, List.countP_cons, h]

theorem emits0_reportProbe {P : Event → Bool}
    (ho : ∀ m, P (Event.output m) = false) (r : Option String)
    (msg : String → String) :
    Emits0 P ((match r with
      | some e => println (msg e) >>= fun _ => pure false
      | none => pure true) : Run Bool) := by
  cases r with
  | some e => exact emits0_bind (emits0_println (ho _)) (fun _ => emits0_pure _)
  | none => exact emits0_pure _

theorem emits0_setupScm {P : Event → Bool} {cfg : BuildConfig} :
    Emits0 P (setupScm cfg) := by
  unfold setupScm
  split
  · exact emits0_pure _
  · exact emits0_panicRun _

theorem emits0_validatePackage {P : Event → Bool} {pk : PackageOracle} :
    Emits0 P (validatePackage pk) := by
  unfold validatePackage
  split
  · exact emits0_panicRun _
  · split
    · exact emits0_panicRun _
    · exact emits0_pure _

theorem emits0_validateBuildEnvironment {P : Event → Bool} {cfg : BuildConfig}
    {term : TerminalOracle} {scm : ScmOracle}
    (hx : ∀ c, P (Event.exec c) = false)
    (ho : ∀ m, P (Event.output m) = false) :
    Emits0 P (validateBuildEnvironment cfg term scm) := by
  unfold validateBuildEnvironment
  refine emits0_bind (emits0_tExec (hx _)) fun r1 => ?_
  refine emits0_bind (emits0_reportProbe ho r1.2 _) fun v1 => ?_
  refine emits0_bind (emits0_tExec (hx _)) fun r2 => ?_
  refine emits0_bind (emits0_reportProbe ho r2.2 _) fun v2 => ?_
  refine emits0_bind (emits0_tExec (hx _)) fun r3 => ?_
  refine emits0_bind (emits0_reportProbe ho r3.2 _) fun v3 => ?_
  refine emits0_bind (emits0_tExec (hx _)) fun r4 => ?_
  refine emits0_bind (emits0_reportProbe ho r4.2 _) fun v4 => ?_
  exact emits0_pure _

theorem emits0_updateCode {P : Event → Bool} {cfg : BuildConfig}
    {term : TerminalOracle} {scm : ScmOracle}
    (hx : ∀ c, P (Event.exec c) = false)
    (ho : ∀ m, P (Event.output m) = false)
    (hck : ∀ r b d, P (Event.checkout r b d) = false) :
    Emits0 P (updateCode cfg term scm) := by
  unfold updateCode
  refine emits0_bind (emits0_pure _) fun pr => ?_
  refine emits0_bind (emits0_setProjectPath _) fun _ => ?_
  refine emits0_bind ?_ fun _ => ?_
  · cases pr.2 with
    | some e => exact emits0_panicRun _
    | none => exact emits0_pure _
  · refine emits0_bind emits0_getProjectPath fun pp => ?_
    refine emits0_bind (emits0_tExec (hx _)) fun r => ?_
    refine emits0_bind ?_ fun _ => ?_
    · cases r.2 with
      | some e =>
        refine emits0_bind (emits0_println (ho _)) fun _ => ?_
        refine emits0_bind (emits0_tExec (hx _)) fun r2 => ?_
        cases r2.2 with
        | some e2 => exact emits0_panicRun _
        | none => exact emits0_println (ho _)
      | none => exact emits0_pure _
    · exact emits0_checkoutRun (hck _ _ _)

theorem emits0_getPackageDependencies {P : Event → Bool} {cfg : BuildConfig}
    {term : TerminalOracle}
    (ho : ∀ m, P (Event.output m) = false)
    (hep : ∀ d, P (Event.execPath (goGetCmd cfg) d) = false) (p : String) :
    Emits0 P (getPackageDependencies cfg term p) := by
  unfold getPackageDependencies
  refine emits0_bind (emits0_println (ho _)) fun _ => ?_
  refine emits0_bind (emits0_tExecPath (hep _)) fun r => ?_
  refine emits0_bind (emits0_println (ho _)) fun _ => ?_
  cases r.2 with
  | some e => exact emits0_panicRun _
  | none => exact emits0_pure _

theorem emits0_updateDependencies {P : Event → Bool} {cfg : BuildConfig}
    {term : TerminalOracle}
    (ho : ∀ m, P (Event.output m) = false)
    (hep : ∀ d, P (Event.execPath (goGetCmd cfg) d) = false) :
    Emits0 P (updateDependencies cfg term) := by
  unfold updateDependencies
  exact emits0_bind emits0_getProjectPath fun pp =>
    emits0_getPackageDependencies ho hep _

theorem emits0_buildProject {P : Event → Bool} {cfg : BuildConfig}
    {term : TerminalOracle}
    (ho : ∀ m, P (Event.output m) = false)
    (hep : ∀ d, P (Event.execPath (goInstallCmd cfg) d) = false) :
    Emits0 P (buildProject cfg term) := by
  unfold buildProject
  refine emits0_bind emits0_getProjectPath fun pp => ?_
  refine emits0_bind (emits0_println (ho _)) fun _ => ?_
  refine emits0_bind (emits0_tExecPath (hep _)) fun r => ?_
  refine emits0_bind (emits0_println (ho _)) fun _ => ?_
  cases r.2 with
  | some e => exact emits0_panicRun _
  | none => exact emits0_pure _

theorem emits0_testSkynet {P : Event → Bool} {cfg : BuildConfig}
    {term : TerminalOracle}
    (ho : ∀ m, P (Event.output m) = false)
    (hget : ∀ d, P (Event.execPath (goGetCmd cfg) d) = false)
    (hta : ∀ d, P (Event.execPath "go test ./..." d) = false) :
    Emits0 P (testSkynet cfg term) := by
  unfold testSkynet
  refine emits0_bind (emits0_println (ho _)) fun _ => ?_
  refine emits0_bind (emits0_getPackageDependencies ho hget _) fun _ => ?_
  refine emits0_bind (emits0_tExecPath (hta _)) fun r => ?_
  refine emits0_bind (emits0_println (ho _)) fun _ => ?_
  cases r.2 with
  | some e => exact emits0_panicRun _
  | none => exact emits0_pure _

theorem emits0_runTests {P : Event → Bool} {cfg : BuildConfig}
    {term : TerminalOracle}
    (ho : ∀ m, P (Event.output m) = false)
    (hget : ∀ d, P (Event.execPath (goGetCmd cfg) d) = false)
    (ht : ∀ d, P (Event.execPath "go test" d) = false)
    (hta : ∀ d, P (Event.execPath "go test ./..." d) = false) :
    Emits0 P (runTests cfg term) := by
  unfold runTests
  refine emits0_bind emits0_getProjectPath fun pp => ?_
  refine emits0_bind (emits0_println (ho _)) fun _ => ?_
  refine emits0_bind (emits0_tExecPath (ht _)) fun r => ?_
  refine emits0_bind (emits0_println (ho _)) fun _ => ?_
  refine emits0_bind ?_ fun _ => ?_
  · cases r.2 with
    | some e => exact emits0_panicRun _
    | none => exact emits0_pure _
  · cases hts : cfg.TestSkynet
    · exact emits0_pure _
    · exact emits0_testSkynet ho hget hta

theorem emits0_runCommands {P : Event → Bool} {term : TerminalOracle}
    (hx : ∀ c, P (Event.exec c) = false)
    (ho : ∀ m, P (Event.output m) = false) :
    ∀ cmds, Emits0 P (runCommands term cmds)
  | [] => emits0_pure _
  | cmd :: rest => by
    unfold runCommands
    refine emits0_bind (emits0_tExec (hx _)) fun r => ?_
    refine emits0_bind (emits0_println (ho _)) fun _ => ?_
    cases r.2 with
    | some e => exact emits0_panicRun _
    | none => exact emits0_runCommands hx ho rest

theorem emits0_performBuild {P : Event → Bool} {cfg : BuildConfig}
    {term : TerminalOracle} {scm : ScmOracle}
    (hx : ∀ c, P (Event.exec c) = false)
    (ho : ∀ m, P (Event.output m) = false)
    (hck : ∀ r b d, P (Event.checkout r b d) = false)
    (hse : ∀ n v, P (Event.setEnv n v) = false)
    (hget : ∀ d, P (Event.execPath (goGetCmd cfg) d) = false)
    (hinst : ∀ d, P (Event.execPath (goInstallCmd cfg) d) = false)
    (htests : Emits0 P (if cfg.RunTests then runTests cfg term else pure ())) :
    Emits0 P (performBuild cfg term scm) := by
  unfold performBuild
  refine emits0_bind emits0_setupScm fun _ => ?_
  refine emits0_bind (emits0_validateBuildEnvironment hx ho) fun valid => ?_
  cases valid
  · exact emits0_pure _
  · refine emits0_bind (emits0_updateCode hx ho hck) fun _ => ?_
    refine emits0_bind (emits0_tSetEnv (hse _ _)) fun _ => ?_
    refine emits0_bind (emits0_tSetEnv (hse _ _)) fun _ => ?_
    refine emits0_bind (emits0_tSetEnv (hse _ _)) fun _ => ?_
    refine emits0_bind (emits0_tSetEnv (hse _ _)) fun _ => ?_
    refine emits0_bind (emits0_runCommands hx ho _) fun _ => ?_
    refine emits0_bind (emits0_updateDependencies ho hget) fun _ => ?_
    refine emits0_bind (emits0_buildProject ho hinst) fun _ => ?_
    refine emits0_bind htests fun _ => ?_
    exact emits0_runCommands hx ho _

theorem emits0_newBuilder {P : Event → Bool} {cfg : BuildConfig}
    {pk : PackageOracle}
    (hcn : ∀ h u, P (Event.connect h u) = false) :
    Emits0 P (newBuilder cfg pk) := by
  unfold newBuilder
  refine emits0_bind ?_ fun _ => emits0_validatePackage
  cases selectBackend cfg with
  | localTerminal => exact emits0_pure _
  | sshConn h u => exact emits0_connectRun (hcn _ _)

theorem emits0_deployStep {P : Event → Bool} {cfg : BuildConfig}
    {dcfg : DeployConfig} {lo : LocalOracle} {host : String}
    (ho : ∀ m, P (Event.output m) = false)
    (hlc : ∀ p a, P (Event.localCmd p a) = false) :
    Emits0 P (deployStep cfg dcfg lo host) := by
  unfold deployStep
  refine emits0_bind ?_ fun r => ?_
  · cases h1 : isHostLocal host && isHostLocal cfg.Host
    · cases h2 : isHostLocal host && !isHostLocal cfg.Host
      · exact emits0_pure _
      · exact emits0_bind (emits0_println (ho _)) fun _ => emits0_localRun (hlc _ _)
    · exact emits0_bind (emits0_println (ho _)) fun _ => emits0_localRun (hlc _ _)
  · refine emits0_bind (emits0_println (ho _)) fun _ => ?_
    cases r.2 with
    | some e => exact emits0_panicRun _
    | none => exact emits0_pure _

theorem emits0_deploy {P : Event → Bool} {cfg : BuildConfig}
    {dcfg : DeployConfig} {lo : LocalOracle}
    (ho : ∀ m, P (Event.output m) = false)
    (hlc : ∀ p a, P (Event.localCmd p a) = false) :
    ∀ hosts, Emits0 P (deploy cfg dcfg lo hosts)
  | [] => emits0_pure _
  | host :: rest => by
    unfold deploy
    exact emits0_bind (emits0_deployStep ho hlc) fun _ =>
      emits0_deploy ho hlc rest

theorem setupScm_git {cfg : BuildConfig} (hRepo : cfg.RepoType = "git")
    (s : BState) : setupScm cfg s = (s, [], Except.ok ()) := by
  simp [setupScm, hRepo]

theorem validatePackage_apply (pk : PackageOracle) (s : BState) :
    validatePackage pk s = (s, [],
      if !pk.importOk then Except.error "Could not import package for validation"
      else if !pk.isCommand then Except.error "Package is not a command"
      else Except.ok ()) := by
  unfold validatePackage
  cases pk.importOk <;> cases pk.isCommand <;> rfl

theorem validateBuildEnvironment_apply (cfg : BuildConfig)
    (term : TerminalOracle) (scm : ScmOracle) (s : BState) :
    validateBuildEnvironment cfg term scm s =
      (s,
       [Event.exec ("ls " ++ cfg.Jail)]
         ++ probeReport (term.exec ("ls " ++ cfg.Jail))
              (fun e => "Could not find Jail directory: " ++ e)
         ++ [Event.exec ("ls " ++ cfg.GoRoot)]
         ++ probeReport (term.exec ("ls " ++ cfg.GoRoot))
              (fun e => "Could not find GOROOT directory: " ++ e)
         ++ [Event.exec ("ls " ++ cfg.GoRoot ++ "/bin/go")]
         ++ probeReport (term.exec ("ls " ++ cfg.GoRoot ++ "/bin/go"))
              (fun e => "Could not find Go binary: " ++ e)
         ++ [Event.exec ("which " ++ scm.binaryName)]
         ++ probeReport (term.exec ("which " ++ scm.binaryName))
              (fun e => "Could not find " ++ cfg.RepoType ++ " binary: " ++ e),
       Except.ok ((term.exec ("ls " ++ cfg.Jail)).2.isNone
         && (term.exec ("ls " ++ cfg.GoRoot)).2.isNone
         && (term.exec ("ls " ++ cfg.GoRoot ++ "/bin/go")).2.isNone
         && (term.exec ("which " ++ scm.binaryName)).2.isNone)) := by
  unfold validateBuildEnvironment probeReport
  cases h1 : (term.exec ("ls " ++ cfg.Jail)).2 <;>
    cases h2 : (term.exec ("ls " ++ cfg.GoRoot)).2 <;>
      cases h3 : (term.exec ("ls " ++ cfg.GoRoot ++ "/bin/go")).2 <;>
        cases h4 : (term.exec ("which " ++ scm.binaryName)).2 <;>
          simp [bind_apply, h1, h2, h3, h4]

theorem validateBuildEnvironment_allOk {cfg : BuildConfig}
    {term : TerminalOracle} {scm : ScmOracle}
    (hE : ∀ c, (term.exec c).2 = none) (s : BState) :
    validateBuildEnvironment cfg term scm s =
      (s,
       [Event.exec ("ls " ++ cfg.Jail), Event.exec ("ls " ++ cfg.GoRoot),
        Event.exec ("ls " ++ cfg.GoRoot ++ "/bin/go"),
        Event.exec ("which " ++ scm.binaryName)],
       Except.ok true) := by
  rw [validateBuildEnvironment_apply]
  simp [probeReport, hE]

theorem runCommands_allOk {term : TerminalOracle} :
    ∀ cmds, (∀ c ∈ cmds, (term.exec c).2 = none) → ∀ s : BState,
      runCommands term cmds s = (s, cmdTrace term cmds, Except.ok ())
  | [], _, s => rfl
  | c :: rest, h, s => by
    have hc : (term.exec c).2 = none := h c (by simp)
    have ih := runCommands_allOk rest
      (fun x hx => h x (List.mem_cons_of_mem _ hx)) s
    unfold runCommands cmdTrace
    rw [bind_apply]
    simp [bind_apply, hc, ih]

theorem updateCode_allOk {cfg : BuildConfig} {term : TerminalOracle}
    {scm : ScmOracle} (hE : ∀ c, (term.exec c).2 = none)
    (hIm : (scm.importPathFromRepo cfg.AppRepo).2 = none)
    (hCk : scm.checkoutOk = true) (s : BState) :
    updateCode cfg term scm s =
      ({ projectPath := projPath0 cfg scm },
       [Event.exec ("ls " ++ projPath0 cfg scm),
        Event.checkout cfg.AppRepo cfg.RepoBranch (projPath0 cfg scm)],
       Except.ok ()) := by
  unfold updateCode projPath0
  simp [bind_apply, hE, hIm, hCk]

theorem getPackageDependencies_apply (cfg : BuildConfig)
    (term : TerminalOracle) (p : String) (s : BState) :
    getPackageDependencies cfg term p s =
      (s,
       [Event.output "Fetching dependencies", Event.execPath (goGetCmd cfg) p,
        Event.output (term.execPath (goGetCmd cfg) p).1],
       match (term.execPath (goGetCmd cfg) p).2 with
       | some e => Except.error ("Failed to fetch dependencies\n" ++ e)
       | none => Except.ok ()) := by
  unfold getPackageDependencies
  cases h : (term.execPath (goGetCmd cfg) p).2 <;> simp [bind_apply, h]

theorem updateDependencies_apply (cfg : BuildConfig) (term : TerminalOracle)
    (s : BState) :
    updateDependencies cfg term s
      = getPackageDependencies cfg term (pathJoin [s.projectPath, cfg.AppPath]) s := by
  unfold updateDependencies
  rw [bind_apply]
  rfl

theorem buildProject_apply (cfg : BuildConfig) (term : TerminalOracle)
    (s : BState) :
    buildProject cfg term s =
      (s,
       [Event.output "Building packages",
        Event.execPath (goInstallCmd cfg) (pathJoin [s.projectPath, cfg.AppPath]),
        Event.output (term.execPath (goInstallCmd cfg)
          (pathJoin [s.projectPath, cfg.AppPath])).1],
       match (term.execPath (goInstallCmd cfg)
          (pathJoin [s.projectPath, cfg.AppPath])).2 with
       | some e => Except.error ("Failed build: " ++ e)
       | none => Except.ok ()) := by
  unfold buildProject
  cases h : (term.execPath (goInstallCmd cfg)
      (pathJoin [s.projectPath, cfg.AppPath])).2 <;> simp [bind_apply, h]

theorem testSkynet_apply {cfg : BuildConfig} {term : TerminalOracle}
    (hGet : (term.execPath (goGetCmd cfg) (skynetPath cfg)).2 = none)
    (s : BState) :
    testSkynet cfg term s =
      (s,
       [Event.output "Testing Skynet", Event.output "Fetching dependencies",
        Event.execPath (goGetCmd cfg) (skynetPath cfg),
        Event.output (term.execPath (goGetCmd cfg) (skynetPath cfg)).1,
        Event.execPath "go test ./..." (skynetPath cfg),
        Event.output (term.execPath "go test ./..." (skynetPath cfg)).1],
       match (term.execPath "go test ./..." (skynetPath cfg)).2 with
       | some e => Except.error ("Failed tests: " ++ e)
       | none => Except.ok ()) := by
  unfold testSkynet
  cases h : (term.execPath "go test ./..." (skynetPath cfg)).2 <;>
    simp [bind_apply, getPackageDependencies_apply, hGet, h]

theorem runTests_sky {cfg : BuildConfig} {term : TerminalOracle}
    (hTS : cfg.TestSkynet = true) (s : BState)
    (hPrim : (term.execPath "go test" (pathJoin [s.projectPath, cfg.AppPath])).2 = none)
    (hGet : (term.execPath (goGetCmd cfg) (skynetPath cfg)).2 = none) :
    runTests cfg term s =
      (s,
       [Event.output "Testing packages",
        Event.execPath "go test" (pathJoin [s.projectPath, cfg.AppPath]),
        Event.output (term.execPath "go test" (pathJoin [s.projectPath, cfg.AppPath])).1,
        Event.output "Testing Skynet", Event.output "Fetching dependencies",
        Event.execPath (goGetCmd cfg) (skynetPath cfg),
        Event.output (term.execPath (goGetCmd cfg) (skynetPath cfg)).1,
        Event.execPath "go test ./..." (skynetPath cfg),
        Event.output (term.execPath "go test ./..." (skynetPath cfg)).1],
       match (term.execPath "go test ./..." (skynetPath cfg)).2 with
       | some e => Except.error ("Failed tests: " ++ e)
       | none => Except.ok ()) := by
  unfold runTests
  cases h : (term.execPath "go test ./..." (skynetPath cfg)).2 <;>
    simp [bind_apply, hPrim, hTS, testSkynet_apply hGet, h]

theorem performBuild_tests {cfg : BuildConfig} {term : TerminalOracle}
    {scm : ScmOracle}
    (hRepo : cfg.RepoType = "git") (hRT : cfg.RunTests = true)
    (hTS : cfg.TestSkynet = true)
    (hE : ∀ c, (term.exec c).2 = none)
    (hIm : (scm.importPathFromRepo cfg.AppRepo).2 = none)
    (hCk : scm.checkoutOk = true)
    (hGet1 : (term.execPath (goGetCmd cfg)
      (pathJoin [projPath0 cfg scm, cfg.AppPath])).2 = none)
    (hInst : (term.execPath (goInstallCmd cfg)
      (pathJoin [projPath0 cfg scm, cfg.AppPath])).2 = none)
    (hPrim : (term.execPath "go test"
      (pathJoin [projPath0 cfg scm, cfg.AppPath])).2 = none)
    (hGet2 : (term.execPath (goGetCmd cfg) (skynetPath cfg)).2 = none)
    (s : BState) :
    performBuild cfg term scm s =
      ({ projectPath := projPath0 cfg scm },
       [Event.exec ("ls " ++ cfg.Jail), Event.exec ("ls " ++ cfg.GoRoot),
        Event.exec ("ls " ++ cfg.GoRoot ++ "/bin/go"),
        Event.exec ("which " ++ scm.binaryName),
        Event.exec ("ls " ++ projPath0 cfg scm),
        Event.checkout cfg.AppRepo cfg.RepoBranch (projPath0 cfg scm),
        Event.setEnv "GOPATH" (goPath cfg), Event.setEnv "GOROOT" cfg.GoRoot,
        Event.setEnv "CGO_CFLAGS" cfg.CgoCFlags,
        Event.setEnv "CGO_LDFLAGS" cfg.CgoLdFlags]
       ++ cmdTrace term cfg.PreBuildCommands
       ++ [Event.output "Fetching dependencies",
           Event.execPath (goGetCmd cfg) (pathJoin [projPath0 cfg scm, cfg.AppPath]),
           Event.output (term.execPath (goGetCmd cfg)
             (pathJoin [projPath0 cfg scm, cfg.AppPath])).1,
           Event.output "Building packages",
           Event.execPath (goInstallCmd cfg) (pathJoin [projPath0 cfg scm, cfg.AppPath]),
           Event.output (term.execPath (goInstallCmd cfg)
             (pathJoin [projPath0 cfg scm, cfg.AppPath])).1,
           Event.output "Testing packages",
           Event.execPath "go test" (pathJoin [projPath0 cfg scm, cfg.AppPath]),
           Event.output (term.execPath "go test"
             (pathJoin [projPath0 cfg scm, cfg.AppPath])).1,
           Event.output "Testing Skynet", Event.output "Fetching dependencies",
           Event.execPath (goGetCmd cfg) (skynetPath cfg),
           Event.output (term.execPath (goGetCmd cfg) (skynetPath cfg)).1,
           Event.execPath "go test ./..." (skynetPath cfg),
           Event.output (term.execPath "go test ./..." (skynetPath cfg)).1]
       ++ (match (term.execPath "go test ./..." (skynetPath cfg)).2 with
           | some _ => []
           | none => cmdTrace term cfg.PostBuildCommands),
       match (term.execPath "go test ./..." (skynetPath cfg)).2 with
       | some e => Except.error ("Failed tests: " ++ e)
       | none => Except.ok ()) := by
  unfold performBuild
  cases hsky : (term.execPath "go test ./..." (skynetPath cfg)).2 <;>
    simp [bind_apply, setupScm_git hRepo, validateBuildEnvironment_allOk hE,
      updateCode_allOk hE hIm hCk, runCommands_allOk _ (fun c _ => hE c),
      updateDependencies_apply, getPackageDependencies_apply,
      buildProject_apply, hRT,
      runTests_sky hTS ({ projectPath := projPath0 cfg scm } : BState) hPrim hGet2,
      hGet1, hInst, hsky]

theorem close_count_body {x : Run Unit} (hx : Emits0 isClose x) (s : BState) :
    ((x >>= fun _ => tClose) s).2.1.countP isClose
      = match ((x >>= fun _ => tClose) s).2.2 with
        | Except.ok _ => 1
        | Except.error _ => 0 := by
  rw [bind_apply]
  rcases h : x s with ⟨s1, t1, r⟩
  have h1 : t1.countP isClose = 0 := by
    have h2 := hx s
    rw [h] at h2
    simpa using h2
  cases r with
  | error e => simpa using h1
  | ok a =>
    show (t1 ++ [Event.close]).countP isClose = 1
    simp [List.countP_append, List.countP_cons, h1, isClose]

theorem close_count_body2 {x y : Run Unit} (hx : Emits0 isClose x)
    (hy : Emits0 isClose y) (s : BState) :
    ((x >>= fun _ => y >>= fun _ => tClose) s).2.1.countP isClose
      = match ((x >>= fun _ => y >>= fun _ => tClose) s).2.2 with
        | Except.ok _ => 1
        | Except.error _ => 0 := by
  rw [bind_apply]
  rcases h : x s with ⟨s1, t1, r⟩
  have h1 : t1.countP isClose = 0 := by
    have h2 := hx s
    rw [h] at h2
    simpa using h2
  cases r with
  | error e => simpa using h1
  | ok a =>
    show (match (y >>= fun _ => tClose) s1 with
      | (s2, t2, r) => ((s2, t1 ++ t2, r) : BState × List Event × Except String Unit)).2.1.countP isClose
      = match (match (y >>= fun _ => tClose) s1 with
          | (s2, t2, r) => ((s2, t1 ++ t2, r) : BState × List Event × Except String Unit)).2.2 with
        | Except.ok _ => 1
        | Except.error _ => 0
    have hin := close_count_body hy s1
    rcases h2 : (y >>= fun _ => tClose) s1 with ⟨s2, t2, r2⟩
    rw [h2] at hin
    cases r2 with
    | error e =>
      show (t1 ++ t2).countP isClose = 0
      have hin2 : t2.countP isClose = 0 := hin
      simp [List.countP_append, h1, hin2]
    | ok u =>
      show (t1 ++ t2).countP isClose = 1
      have hin2 : t2.countP isClose = 1 := hin
      simp [List.countP_append, h1, hin2]

theorem emits0_isClose_performBuild {cfg : BuildConfig} {term : TerminalOracle}
    {scm : ScmOracle} : Emits0 isClose (performBuild cfg term scm) := by
  refine emits0_performBuild (fun _ => rfl) (fun _ => rfl) (fun _ _ _ => rfl)
    (fun _ _ => rfl) (fun _ => rfl) (fun _ => rfl) ?_
  cases cfg.RunTests
  · exact emits0_pure _
  · exact emits0_runTests (fun _ => rfl) (fun _ => rfl) (fun _ => rfl)
      (fun _ => rfl)

/-- C1 (amended): on every run started through `Build` or `Deploy`, the
backend `Close` is invoked exactly once when the run terminates normally
(success, or the non-panicking environment-validation failure path), and is
never invoked when any stage panics: the close count equals one exactly on
the normal-termination paths. -/
theorem close_called_iff_normal_exit (cfg : BuildConfig) (dcfg : DeployConfig)
    (term : TerminalOracle) (scm : ScmOracle) (pk : PackageOracle)
    (lo : LocalOracle) (s : BState) :
    ((Build cfg term scm pk s).2.1.countP isClose
        = match (Build cfg term scm pk s).2.2 with
          | Except.ok _ => 1
          | Except.error _ => 0)
    ∧ ((Deploy cfg dcfg pk lo s).2.1.countP isClose
        = match (Deploy cfg dcfg pk lo s).2.2 with
          | Except.ok _ => 1
          | Except.error _ => 0) := by
  constructor
  · exact close_count_body2 (emits0_newBuilder (fun _ _ => rfl))
      emits0_isClose_performBuild s
  · exact close_count_body2 (emits0_newBuilder (fun _ _ => rfl))
      (emits0_deploy (fun _ => rfl) (fun _ _ => rfl) _) s

/-- C1 counterexample: with a failing pre-build command the run panics and
`Close` is never invoked, against the claim that `Close` runs exactly once on
every exit path including command failure. -/
theorem close_skipped_on_command_failure :
    (Build cfgBoom termBoom scmOk pkOk initState).2.2
        = Except.error ("Failed to execute dependent command: boom\nbad")
    ∧ (Build cfgBoom termBoom scmOk pkOk initState).2.1.countP isClose = 0 := by
  exact ⟨rfl, rfl⟩

/-- C7: with `RunTests = false` no test command is ever issued during a
`Build` run, whatever the value of `TestSkynet` and whatever the oracles
report: the trace holds no directory-scoped `go test` or `go test ./...`
command. -/
theorem no_test_command_when_runtests_false (cfg : BuildConfig)
    (term : TerminalOracle) (scm : ScmOracle) (pk : PackageOracle)
    (hRT : cfg.RunTests = false) (s : BState) :
    (Build cfg term scm pk s).2.1.countP isTestCmd = 0 := by
  have hget : ∀ d, isTestCmd (Event.execPath (goGetCmd cfg) d) = false := by
    intro d
    have he : isTestCmd (Event.execPath (goGetCmd cfg) d)
        = (decide (goGetCmd cfg = "go test")
            || decide (goGetCmd cfg = "go test ./...")) := rfl
    rw [he]
    unfold goGetCmd
    cases cfg.UpdatePackages <;> decide
  have hinst : ∀ d, isTestCmd (Event.execPath (goInstallCmd cfg) d) = false := by
    intro d
    have he : isTestCmd (Event.execPath (goInstallCmd cfg) d)
        = (decide (goInstallCmd cfg = "go test")
            || decide (goInstallCmd cfg = "go test ./...")) := rfl
    rw [he]
    unfold goInstallCmd
    cases cfg.BuildAllPackages <;> decide
  have h : Emits0 isTestCmd (Build cfg term scm pk) := by
    unfold Build
    refine emits0_bind (emits0_newBuilder (fun _ _ => rfl)) fun _ => ?_
    refine emits0_bind (emits0_performBuild (fun _ => rfl) (fun _ => rfl)
      (fun _ _ _ => rfl) (fun _ _ => rfl) hget hinst ?_) fun _ => ?_
    · rw [hRT]
      exact emits0_pure _
    · intro s2
      rfl
  exact h s

/-- C7 witness: a concrete configuration with `RunTests = false` and
`TestSkynet = true` issues no test command. -/
theorem no_test_command_witness :
    (Build cfgNoTests termOk scmOk pkOk initState).2.1.countP isTestCmd = 0 :=
  no_test_command_when_runtests_false cfgNoTests termOk scmOk pkOk rfl initState

/-- C6: with `RunTests = true` and `TestSkynet = true`, after the primary
test command has been issued the pipeline fetches the dependencies of the
fixed internal project `join(Jail, "src/github.com/skynetservices/skynet2")`
and runs `go test ./...` there, in that order; and a failure of that
recursive test suite aborts the run with the fatal test error. -/
theorem skynet_selftest_after_primary (cfg : BuildConfig) (scm : ScmOracle)
    (s : BState)
    (hRepo : cfg.RepoType = "git") (hRT : cfg.RunTests = true)
    (hTS : cfg.TestSkynet = true)
    (hIm : (scm.importPathFromRepo cfg.AppRepo).2 = none)
    (hCk : scm.checkoutOk = true) :
    (∀ term : TerminalOracle,
      (∀ c, (term.exec c).2 = none) →
      (∀ c d, (term.execPath c d).2 = none) →
      ∃ t0 t1 t2 t3,
        (performBuild cfg term scm s).2.1
          = t0 ++ Event.execPath "go test" (pathJoin [projPath0 cfg scm, cfg.AppPath])
              :: (t1 ++ Event.execPath (goGetCmd cfg) (skynetPath cfg)
              :: (t2 ++ Event.execPath "go test ./..." (skynetPath cfg) :: t3)))
    ∧ (∀ (term : TerminalOracle) (e : String),
      (∀ c, (term.exec c).2 = none) →
      (∀ c d, ¬(c = "go test ./..." ∧ d = skynetPath cfg) →
        (term.execPath c d).2 = none) →
      (term.execPath "go test ./..." (skynetPath cfg)).2 = some e →
      (performBuild cfg term scm s).2.2
        = Except.error ("Failed tests: " ++ e)) := by
  constructor
  · intro term hE hEP
    refine ⟨[Event.exec ("ls " ++ cfg.Jail), Event.exec ("ls " ++ cfg.GoRoot),
        Event.exec ("ls " ++ cfg.GoRoot ++ "/bin/go"),
        Event.exec ("which " ++ scm.binaryName),
        Event.exec ("ls " ++ projPath0 cfg scm),
        Event.checkout cfg.AppRepo cfg.RepoBranch (projPath0 cfg scm),
        Event.setEnv "GOPATH" (goPath cfg), Event.setEnv "GOROOT" cfg.GoRoot,
        Event.setEnv "CGO_CFLAGS" cfg.CgoCFlags,
        Event.setEnv "CGO_LDFLAGS" cfg.CgoLdFlags]
       ++ cmdTrace term cfg.PreBuildCommands
       ++ [Event.output "Fetching dependencies",
           Event.execPath (goGetCmd cfg) (pathJoin [projPath0 cfg scm, cfg.AppPath]),
           Event.output (term.execPath (goGetCmd cfg)
             (pathJoin [projPath0 cfg scm, cfg.AppPath])).1,
           Event.output "Building packages",
           Event.execPath (goInstallCmd cfg) (pathJoin [projPath0 cfg scm, cfg.AppPath]),
           Event.output (term.execPath (goInstallCmd cfg)
             (pathJoin [projPath0 cfg scm, cfg.AppPath])).1,
           Event.output "Testing packages"],
      [Event.output (term.execPath "go test"
          (pathJoin [projPath0 cfg scm, cfg.AppPath])).1,
       Event.output "Testing Skynet", Event.output "Fetching dependencies"],
      [Event.output (term.execPath (goGetCmd cfg) (skynetPath cfg)).1],
      [Event.output (term.execPath "go test ./..." (skynetPath cfg)).1]
       ++ cmdTrace term cfg.PostBuildCommands, ?_⟩
    rw [performBuild_tests hRepo hRT hTS hE hIm hCk (hEP _ _) (hEP _ _)
      (hEP _ _) (hEP _ _) s]
    simp [hEP]
  · intro term e hE hEP hFail
    have hne1 : goGetCmd cfg ≠ "go test ./..." := by
      unfold goGetCmd
      cases cfg.UpdatePackages <;> decide
    have hne2 : goInstallCmd cfg ≠ "go test ./..." := by
      unfold goInstallCmd
      cases cfg.BuildAllPackages <;> decide
    have hg1 : (term.execPath (goGetCmd cfg)
        (pathJoin [projPath0 cfg scm, cfg.AppPath])).2 = none :=
      hEP _ _ (fun hand => hne1 hand.1)
    have hg2 : (term.execPath (goGetCmd cfg) (skynetPath cfg)).2 = none :=
      hEP _ _ (fun hand => hne1 hand.1)
    have hi : (term.execPath (goInstallCmd cfg)
        (pathJoin [projPath0 cfg scm, cfg.AppPath])).2 = none :=
      hEP _ _ (fun hand => hne2 hand.1)
    have hp : (term.execPath "go test"
        (pathJoin [projPath0 cfg scm, cfg.AppPath])).2 = none :=
      hEP _ _ (fun hand => absurd hand.1 (by decide))
    rw [performBuild_tests hRepo hRT hTS hE hIm hCk hg1 hi hp hg2 s]
    simp [hFail]

/-- C6 witness: on a concrete all-success run with both flags set, the
primary test, the skynet dependency fetch and the recursive skynet test
appear in the trace in that order. -/
theorem skynet_selftest_witness :
    ∃ t0 t1 t2 t3,
      (performBuild cfgTests termOk scmOk initState).2.1
        = t0 ++ Event.execPath "go test"
            (pathJoin [projPath0 cfgTests scmOk, cfgTests.AppPath])
            :: (t1 ++ Event.execPath (goGetCmd cfgTests) (skynetPath cfgTests)
            :: (t2 ++ Event.execPath "go test ./..." (skynetPath cfgTests) :: t3)) :=
  (skynet_selftest_after_primary cfgTests scmOk initState rfl rfl rfl rfl rfl).1
    termOk (fun _ => rfl) (fun _ _ => rfl)

/-- C10: the GOPATH value set during environment configuration is `Jail`
when the configured `GoPath` is empty, and `Jail ++ ":" ++ GoPath`
otherwise; on a run that reaches environment configuration the backend
receives exactly that value for GOPATH. -/
theorem gopath_value (cfg : BuildConfig) (term : TerminalOracle)
    (scm : ScmOracle) (s : BState)
    (hRepo : cfg.RepoType = "git") (hE : ∀ c, (term.exec c).2 = none)
    (hIm : (scm.importPathFromRepo cfg.AppRepo).2 = none)
    (hCk : scm.checkoutOk = true) :
    goPath cfg
      = (if cfg.GoPath = "" then cfg.Jail else cfg.Jail ++ ":" ++ cfg.GoPath)
    ∧ Event.setEnv "GOPATH" (goPath cfg) ∈ (performBuild cfg term scm s).2.1 := by
  constructor
  · by_cases h : cfg.GoPath = "" <;> simp [goPath, h]
  · unfold performBuild
    simp [bind_apply, setupScm_git hRepo, validateBuildEnvironment_allOk hE,
      updateCode_allOk hE hIm hCk]

/-- C10 witness: on a concrete successful run the backend receives GOPATH
equal to the jail (the configured GoPath being empty). -/
theorem gopath_value_witness :
    goPath cfgTests
      = (if cfgTests.GoPath = "" then cfgTests.Jail
         else cfgTests.Jail ++ ":" ++ cfgTests.GoPath)
    ∧ Event.setEnv "GOPATH" (goPath cfgTests)
        ∈ (performBuild cfgTests termOk scmOk initState).2.1 :=
  gopath_value cfgTests termOk scmOk initState rfl (fun _ => rfl) rfl rfl

/-- C9: `isHostLocal` holds exactly on the empty string, `localhost` and
`127.0.0.1`; backend construction selects the local terminal exactly for
those values and otherwise selects the ssh backend and establishes the
connection to the configured host as the configured user. -/
theorem local_host_predicate_and_backend (h : String) (cfg : BuildConfig)
    (pk : PackageOracle) (s : BState) :
    (isHostLocal h = true ↔ (h = "" ∨ h = "localhost" ∨ h = "127.0.0.1"))
    ∧ selectBackend cfg
        = (if isHostLocal cfg.Host then Backend.localTerminal
           else Backend.sshConn cfg.Host cfg.User)
    ∧ (newBuilder cfg pk s).2.1
        = (if isHostLocal cfg.Host then ([] : List Event)
           else [Event.connect cfg.Host cfg.User]) := by
  refine ⟨?_, rfl, ?_⟩
  · unfold isHostLocal
    split
    · rename_i hc
      simp only [Bool.or_eq_true, decide_eq_true_eq] at hc
      constructor
      · intro _
        tauto
      · intro _
        rfl
    · rename_i hc
      simp only [Bool.or_eq_true, decide_eq_true_eq, not_or] at hc
      constructor
      · intro hf
        exact absurd hf (by simp)
      · intro hd
        exfalso
        tauto
  · unfold newBuilder selectBackend
    cases hloc : isHostLocal cfg.Host <;>
      cases hio : pk.importOk <;> cases hic : pk.isCommand <;>
        simp [bind_apply, hloc, validatePackage_apply, hio, hic]

/-- C4: the environment-validation stage executes all four probes in order
regardless of the outcome of earlier probes, appends the stage report for
each failing probe right after its probe, and returns normally with success
exactly when all four probes pass. -/
theorem validate_probes_all_run (cfg : BuildConfig) (term : TerminalOracle)
    (scm : ScmOracle) (s : BState) :
    validateBuildEnvironment cfg term scm s =
      (s,
       [Event.exec ("ls " ++ cfg.Jail)]
         ++ probeReport (term.exec ("ls " ++ cfg.Jail))
              (fun e => "Could not find Jail directory: " ++ e)
         ++ [Event.exec ("ls " ++ cfg.GoRoot)]
         ++ probeReport (term.exec ("ls " ++ cfg.GoRoot))
              (fun e => "Could not find GOROOT directory: " ++ e)
         ++ [Event.exec ("ls " ++ cfg.GoRoot ++ "/bin/go")]
         ++ probeReport (term.exec ("ls " ++ cfg.GoRoot ++ "/bin/go"))
              (fun e => "Could not find Go binary: " ++ e)
         ++ [Event.exec ("which " ++ scm.binaryName)]
         ++ probeReport (term.exec ("which " ++ scm.binaryName))
              (fun e => "Could not find " ++ cfg.RepoType ++ " binary: " ++ e),
       Except.ok ((term.exec ("ls " ++ cfg.Jail)).2.isNone
         && (term.exec ("ls " ++ cfg.GoRoot)).2.isNone
         && (term.exec ("ls " ++ cfg.GoRoot ++ "/bin/go")).2.isNone
         && (term.exec ("which " ++ scm.binaryName)).2.isNone))
    ∧ execEvents (validateBuildEnvironment cfg term scm s).2.1
        = ["ls " ++ cfg.Jail, "ls " ++ cfg.GoRoot,
           "ls " ++ cfg.GoRoot ++ "/bin/go", "which " ++ scm.binaryName] := by
  refine ⟨validateBuildEnvironment_apply cfg term scm s, ?_⟩
  rw [validateBuildEnvironment_apply]
  cases h1 : (term.exec ("ls " ++ cfg.Jail)).2 <;>
    cases h2 : (term.exec ("ls " ++ cfg.GoRoot)).2 <;>
      cases h3 : (term.exec ("ls " ++ cfg.GoRoot ++ "/bin/go")).2 <;>
        cases h4 : (term.exec ("which " ++ scm.binaryName)).2 <;>
          simp [execEvents, probeReport, h1, h2, h3, h4]

theorem updateCode_state (cfg : BuildConfig) (term : TerminalOracle)
    (scm : ScmOracle) (s : BState) :
    (updateCode cfg term scm s).1 = { projectPath := projPath0 cfg scm } := by
  unfold updateCode projPath0
  cases hIm : (scm.importPathFromRepo cfg.AppRepo).2 with
  | some e => simp [bind_apply, hIm]
  | none =>
    cases hls : (term.exec ("ls " ++ pathJoin [cfg.Jail, "src",
        (scm.importPathFromRepo cfg.AppRepo).1])).2 with
    | none => cases hck : scm.checkoutOk <;> simp [bind_apply, hIm, hls, hck]
    | some e1 =>
      cases hmk : (term.exec ("mkdir -p " ++ pathJoin [cfg.Jail, "src",
          (scm.importPathFromRepo cfg.AppRepo).1])).2 with
      | some e2 => simp [bind_apply, hIm, hls, hmk]
      | none => cases hck : scm.checkoutOk <;> simp [bind_apply, hIm, hls, hmk, hck]

theorem updateDependencies_facts (cfg : BuildConfig) (term : TerminalOracle)
    (s : BState) :
    (updateDependencies cfg term s).1 = s
    ∧ execPathDirs (updateDependencies cfg term s).2.1
        = [pathJoin [s.projectPath, cfg.AppPath]] := by
  constructor <;>
    simp [updateDependencies_apply, getPackageDependencies_apply, execPathDirs]

theorem buildProject_facts (cfg : BuildConfig) (term : TerminalOracle)
    (s : BState) :
    (buildProject cfg term s).1 = s
    ∧ execPathDirs (buildProject cfg term s).2.1
        = [pathJoin [s.projectPath, cfg.AppPath]] := by
  constructor <;> simp [buildProject_apply, execPathDirs]

theorem runTests_facts (cfg : BuildConfig) (term : TerminalOracle)
    (s : BState) :
    (runTests cfg term s).1 = s
    ∧ (execPathDirs (runTests cfg term s).2.1).head?
        = some (pathJoin [s.projectPath, cfg.AppPath]) := by
  unfold runTests testSkynet
  cases hprim : (term.execPath "go test" (pathJoin [s.projectPath, cfg.AppPath])).2 with
  | some e => constructor <;> simp [bind_apply, hprim, execPathDirs]
  | none =>
    cases hts : cfg.TestSkynet with
    | false => constructor <;> simp [bind_apply, hprim, hts, execPathDirs]
    | true =>
      cases hget : (term.execPath (goGetCmd cfg) (skynetPath cfg)).2 with
      | some e =>
        constructor <;>
          simp [bind_apply, hprim, hts, getPackageDependencies_apply, hget,
            execPathDirs]
      | none =>
        cases hsky : (term.execPath "go test ./..." (skynetPath cfg)).2 <;>
          constructor <;>
            simp [bind_apply, hprim, hts, getPackageDependencies_apply, hget,
              hsky, execPathDirs]

/-- C3 (amended): `updateCode` assigns ProjectPath exactly once, as
`join(Jail, "src", p)` over the value `p` returned by the import-path
derivation — the assignment precedes the error check, so it happens even
when the derivation failed and the run is about to abort; the
dependency-fetch, build and test stages leave the field unchanged and
address their commands under `join(projectPath, AppPath)`. -/
theorem projectPath_assignment_and_reuse (cfg : BuildConfig)
    (term : TerminalOracle) (scm : ScmOracle) (s : BState) :
    (updateCode cfg term scm s).1 = { projectPath := projPath0 cfg scm }
    ∧ (updateDependencies cfg term s).1 = s
    ∧ execPathDirs (updateDependencies cfg term s).2.1
        = [pathJoin [s.projectPath, cfg.AppPath]]
    ∧ (buildProject cfg term s).1 = s
    ∧ execPathDirs (buildProject cfg term s).2.1
        = [pathJoin [s.projectPath, cfg.AppPath]]
    ∧ (runTests cfg term s).1 = s
    ∧ (execPathDirs (runTests cfg term s).2.1).head?
        = some (pathJoin [s.projectPath, cfg.AppPath]) :=
  ⟨updateCode_state cfg term scm s,
   (updateDependencies_facts cfg term s).1,
   (updateDependencies_facts cfg term s).2,
   (buildProject_facts cfg term s).1,
   (buildProject_facts cfg term s).2,
   (runTests_facts cfg term s).1,
   (runTests_facts cfg term s).2⟩

/-- C3 counterexample: a failing import-path derivation still assigns
ProjectPath (to `join(Jail, "src", "")` here) before the run aborts, so
ProjectPath is not computed only after the derivation has succeeded. -/
theorem projectPath_assigned_despite_failed_derivation :
    (updateCode cfg0 termOk scmBad initState).2.2 = Except.error "bad repo"
    ∧ (updateCode cfg0 termOk scmBad initState).1.projectPath = "/j/src" :=
  ⟨rfl, rfl⟩

/-- C2 (amended): a host in the deploy list matching neither supported
transfer combination — that is, any non-local destination host — is
silently skipped: no transfer command is spawned, the empty output is
printed, no error is raised, and processing continues with the next host. -/
theorem unsupported_host_silently_skipped (cfg : BuildConfig)
    (dcfg : DeployConfig) (lo : LocalOracle) (host : String)
    (rest : List String) (s : BState)
    (hrem : isHostLocal host = false) :
    deployStep cfg dcfg lo host s = (s, [Event.output ""], Except.ok ())
    ∧ (deploy cfg dcfg lo (host :: rest) s).2.1
        = Event.output "" :: (deploy cfg dcfg lo rest s).2.1
    ∧ (deploy cfg dcfg lo (host :: rest) s).2.2
        = (deploy cfg dcfg lo rest s).2.2 := by
  have hstep : deployStep cfg dcfg lo host s = (s, [Event.output ""], Except.ok ()) := by
    unfold deployStep
    simp [bind_apply, hrem]
  have hcons : deploy cfg dcfg lo (host :: rest) s
      = (deployStep cfg dcfg lo host >>= fun _ => deploy cfg dcfg lo rest) s := rfl
  refine ⟨hstep, ?_, ?_⟩ <;> (rw [hcons]; simp [hstep])

/-- C2 witness: the remote host example.com is skipped with no command and
no error, and the loop moves on. -/
theorem unsupported_host_witness :
    deployStep cfg0 dcfg0 loOk "example.com" initState
        = (initState, [Event.output ""], Except.ok ())
    ∧ (deploy cfg0 dcfg0 loOk ("example.com" :: []) initState).2.1
        = Event.output "" :: (deploy cfg0 dcfg0 loOk [] initState).2.1
    ∧ (deploy cfg0 dcfg0 loOk ("example.com" :: []) initState).2.2
        = (deploy cfg0 dcfg0 loOk [] initState).2.2 :=
  unsupported_host_silently_skipped cfg0 dcfg0 loOk "example.com" [] initState rfl

/-- C2 counterexample: deploying to the unsupported remote destination
example.com terminates normally, spawning no transfer command and raising no
transfer error, against the claim that such a host is rejected with a fatal
transfer error. -/
theorem unsupported_host_no_error :
    (deploy cfg0 dcfg0 loOk ["example.com"] initState).2.2 = Except.ok ()
    ∧ (deploy cfg0 dcfg0 loOk ["example.com"] initState).2.1.countP isLocalCmd
        = 0 :=
  ⟨rfl, rfl⟩

/-- C8: with a local destination host and a local build host, the deploy
step spawns exactly one local `cp` from `join(Jail, "bin", base(AppPath))`
to `join(DeployPath, BinaryName)`, and fails exactly when the copy fails. -/
theorem local_deploy_copy (cfg : BuildConfig) (dcfg : DeployConfig)
    (lo : LocalOracle) (host : String) (s : BState)
    (hH : isHostLocal host = true) (hB : isHostLocal cfg.Host = true) :
    deployStep cfg dcfg lo host s =
      (s,
       [Event.output "Copying local binary",
        Event.localCmd "cp" [pathJoin [cfg.Jail, "bin", pathBase cfg.AppPath],
                             pathJoin [dcfg.DeployPath, dcfg.BinaryName]],
        Event.output (lo.run "cp"
          [pathJoin [cfg.Jail, "bin", pathBase cfg.AppPath],
           pathJoin [dcfg.DeployPath, dcfg.BinaryName]]).1],
       match (lo.run "cp" [pathJoin [cfg.Jail, "bin", pathBase cfg.AppPath],
           pathJoin [dcfg.DeployPath, dcfg.BinaryName]]).2 with
       | some e => Except.error ("Failed to deploy: " ++ e)
       | none => Except.ok ()) := by
  unfold deployStep
  cases h : (lo.run "cp" [pathJoin [cfg.Jail, "bin", pathBase cfg.AppPath],
      pathJoin [dcfg.DeployPath, dcfg.BinaryName]]).2 <;>
    simp [bind_apply, hH, hB, h]

/-- C8 witness: with Jail=/j, AppPath=myapp, DeployPath=/out, BinaryName=app
and a local-to-local pair, the deploy step copies /j/bin/myapp to /out/app. -/
theorem local_deploy_copy_witness :
    deployStep cfg0 dcfg0 loOk "localhost" initState
      = (initState,
         [Event.output "Copying local binary",
          Event.localCmd "cp" ["/j/bin/myapp", "/out/app"],
          Event.output ""], Except.ok ()) := by
  rw [local_deploy_copy cfg0 dcfg0 loOk "localhost" initState rfl rfl]
  rfl

theorem runCommands_execEvents (term : TerminalOracle) :
    ∀ cmds (s : BState),
      execEvents ((runCommands term cmds s).2.1)
        = commandsAttempted term cmds
  | [], _ => rfl
  | c :: rest, s => by
    unfold runCommands commandsAttempted
    cases hc : (term.exec c).2 with
    | some e => simp [bind_apply, execEvents, hc]
    | none =>
      simp [bind_apply, execEvents, hc]
      exact runCommands_execEvents term rest s

theorem runCommands_fails {term : TerminalOracle} :
    ∀ cmds, (∃ c ∈ cmds, ((term.exec c).2).isSome = true) → ∀ s : BState,
      ∃ e, (runCommands term cmds s).2.2 = Except.error e
  | [], h, _ => absurd h (by simp)
  | c :: rest, h, s => by
    cases hc : (term.exec c).2 with
    | some e =>
      refine ⟨"Failed to execute dependent command: " ++ c ++ "\n" ++ e, ?_⟩
      unfold runCommands
      simp [bind_apply, hc]
    | none =>
      rcases h with ⟨x, hx, hfail⟩
      have hx2 : x ∈ rest := by
        rcases List.mem_cons.mp hx with h1 | h1
        · subst h1
          rw [hc] at hfail
          simp at hfail
        · exact h1
      obtain ⟨e, he⟩ := runCommands_fails rest ⟨x, hx2, hfail⟩ s
      refine ⟨e, ?_⟩
      unfold runCommands
      simp [bind_apply, hc, he]

theorem emits0_bind_of_error {P : Event → Bool} {α β : Type} {x : Run α}
    {f : α → Run β} (hx : Emits0 P x)
    (he : ∀ s, ∃ e, (x s).2.2 = Except.error e) : Emits0 P (x >>= f) := by
  intro s
  rw [run_trace_bind]
  rcases he s with ⟨e, hes⟩
  rw [hes]
  simp [List.countP_append, hx s]

/-- C5: the pre-build stage attempts exactly the prefix of the command list
up to and including its first failing command, and as soon as some pre-build
command fails no directory-scoped command is ever issued — the dependency
fetch, the build and the tests, which are the only emitters of such
commands, are never reached. -/
theorem prebuild_failure_stops_pipeline (cfg : BuildConfig)
    (term : TerminalOracle) (scm : ScmOracle) (s : BState)
    (h : ∃ c ∈ cfg.PreBuildCommands, ((term.exec c).2).isSome = true) :
    execEvents ((runCommands term cfg.PreBuildCommands s).2.1)
        = commandsAttempted term cfg.PreBuildCommands
    ∧ (performBuild cfg term scm s).2.1.countP isExecPath = 0 := by
  refine ⟨runCommands_execEvents term cfg.PreBuildCommands s, ?_⟩
  have hfail : ∀ s1 : BState,
      ∃ e, (runCommands term cfg.PreBuildCommands s1).2.2 = Except.error e :=
    runCommands_fails cfg.PreBuildCommands h
  have hglobal : Emits0 isExecPath (performBuild cfg term scm) := by
    unfold performBuild
    refine emits0_bind emits0_setupScm fun _ => ?_
    refine emits0_bind
      (emits0_validateBuildEnvironment (fun _ => rfl) (fun _ => rfl))
      fun valid => ?_
    cases valid
    · exact emits0_pure _
    · refine emits0_bind
        (emits0_updateCode (fun _ => rfl) (fun _ => rfl) (fun _ _ _ => rfl))
        fun _ => ?_
      refine emits0_bind (emits0_tSetEnv rfl) fun _ => ?_
      refine emits0_bind (emits0_tSetEnv rfl) fun _ => ?_
      refine emits0_bind (emits0_tSetEnv rfl) fun _ => ?_
      refine emits0_bind (emits0_tSetEnv rfl) fun _ => ?_
      exact emits0_bind_of_error
        (emits0_runCommands (fun _ => rfl) (fun _ => rfl) _) hfail
  exact hglobal s

/-- C5 witness: with the single failing pre-build command boom, the stage
attempts exactly that command and the pipeline issues no directory-scoped
command at all. -/
theorem prebuild_failure_witness :
    execEvents ((runCommands termBoom cfgBoom.PreBuildCommands initState).2.1)
        = commandsAttempted termBoom cfgBoom.PreBuildCommands
    ∧ (performBuild cfgBoom termBoom scmOk initState).2.1.countP isExecPath = 0 :=
  prebuild_failure_stops_pipeline cfgBoom termBoom scmOk initState
    ⟨"boom", by decide, rfl⟩

end Skynet
